import Mathlib

/-! Thermocouple drivers: MAX31855 decoder and MAX31856 register driver

A shallow embedding of `thermo_stuff/thermo_stuff/max31855.cpp` and
`thermo_stuff/max31856_demo/max31856.cpp`.

Conventions of the embedding.

* Machine integers are `Nat` (unsigned) or `Int` (signed); every place where the
  C code narrows a value to a fixed width carries an explicit `% 2 ^ w`.
* A pointer argument that may be `NULL` is an `Option`; `none` is `NULL`.
* A `float`/`double` result is an `Option ℚ`; `none` is `NAN`.  Every number the
  modelled functions produce is an integer of fewer than 19 bits scaled by a power
  of two (`/ 4`, `/ 16`, `* (1 / 128)`), which IEEE single and double precision
  represent exactly, so the rational value is the value the C code returns.
  The three unit conversions of `max31855.cpp` round in `double` at every step and
  are not part of the embedding.
* The bit-field struct `max31855_le` is laid out as the header says it assumes:
  little endian host, first declared member in the least significant bits, and
  plain `int` bit-fields signed (two's complement).
-/

namespace Thermo

/-! ## Bit-field access -/

/-- Read of an unsigned bit-field of width `w` whose least significant bit is bit `pos`
of the 32-bit storage unit `u32`. -/
def bitfield_u (u32 pos w : Nat) : Nat :=
  (u32 >>> pos) &&& (2 ^ w - 1)

/-- Read of a signed (`int`) bit-field of width `w` at bit `pos`: the stored bits,
widened to `int` by copying the field's top bit. -/
def bitfield_i (u32 pos w : Nat) : Int :=
  let bits := bitfield_u u32 pos w
  if bits &&& 2 ^ (w - 1) ≠ 0 then (bits : Int) - 2 ^ w else (bits : Int)

/-! ## MAX31855 (`max31855.h`, `max31855.cpp`) -/

/-- The struct `max31855_le` (`#define max31855 max31855_le`): one field per
bit-field member, in declaration order. -/
structure max31855 where
  /-- D0: open circuit -/
  err_oc : Nat
  /-- D1: shorted to GND -/
  err_scg : Nat
  /-- D2: shorted to Vcc -/
  err_scv : Nat
  /-- D3: reserved -/
  reserved3 : Nat
  /-- D4-15: internal temperature, `int : 12` -/
  internal_sixteenths : Int
  /-- D16: fault -/
  fault : Nat
  /-- D17: reserved -/
  reserved17 : Nat
  /-- D18-D31: thermocouple temperature data, `int : 14` -/
  quarter_degrees : Int
deriving DecidableEq

/-- The view of the union member `pun.max` after `pun.u32 = raw`. -/
def pun_max (u32 : Nat) : max31855 :=
  { err_oc := bitfield_u u32 0 1
    err_scg := bitfield_u u32 1 1
    err_scv := bitfield_u u32 2 1
    reserved3 := bitfield_u u32 3 1
    internal_sixteenths := bitfield_i u32 4 12
    fault := bitfield_u u32 16 1
    reserved17 := bitfield_u u32 17 1
    quarter_degrees := bitfield_i u32 18 14 }

/-- Model of `int max31855_error(struct max31855 *smax)`. -/
def max31855_error (smax : Option max31855) : Int :=
  match smax with
  | none => -1
  | some m =>
    if m.err_oc ≠ 0 then 1
    else if m.err_scg ≠ 0 then 2
    else if m.err_scv ≠ 0 then 3
    else if m.fault ≠ 0 then 4
    else 0

/-- Model of `int max31855_from_u32(struct max31855 *smax, uint32_t raw)`.
The argument `smax` is the pointer (`none` is `NULL`, `some old` a struct holding
`old`); the result is the struct behind the pointer after the call, and the
returned `int`. -/
def max31855_from_u32 (smax : Option max31855) (raw : Nat) : Option max31855 × Int :=
  match smax with
  | none => (none, -1)
  | some _ =>
    let u32 := raw % 2 ^ 32
    let smax := some (pun_max u32)
    (smax, max31855_error smax)

/-- Model of `double max31855_degrees_c(struct max31855 *smax)`. -/
def max31855_degrees_c (smax : Option max31855) : Option ℚ :=
  match smax with
  | some m => some (((m.quarter_degrees : ℚ) * 1) / 4)
  | none => none

/-- Model of `double max31855_internal_degrees_c(struct max31855 *smax)`. -/
def max31855_internal_degrees_c (smax : Option max31855) : Option ℚ :=
  match smax with
  | some m => some (((m.internal_sixteenths : ℚ) * 1) / 16)
  | none => none

/-- The integer that the `w`-bit pattern `u` denotes in two's complement, in the words
of the specification: `u - 2 ^ w` when bit `w - 1` of `u` is set, else `u`. -/
def twos_complement (w u : Nat) : Int :=
  if u.testBit (w - 1) then (u : Int) - 2 ^ w else (u : Int)

/-- A zero-filled struct, for use as the target `*smax` of a decode. -/
def max31855_zeroed : max31855 :=
  { err_oc := 0, err_scg := 0, err_scv := 0, reserved3 := 0, internal_sixteenths := 0,
    fault := 0, reserved17 := 0, quarter_degrees := 0 }

/-- The `w` bits a signed bit-field of width `w` stores for the value `x`. -/
def field_bits (x : Int) (w : Nat) : Nat :=
  (x % 2 ^ w).toNat

/-- Re-encoding as the specification words it: the four error/fault bits and the two
signed fields, each placed back at its bit position of the layout. -/
def encode_fields (m : max31855) : Nat :=
  m.err_oc * 2 ^ 0 + m.err_scg * 2 ^ 1 + m.err_scv * 2 ^ 2
    + field_bits m.internal_sixteenths 12 * 2 ^ 4
    + m.fault * 2 ^ 16
    + field_bits m.quarter_degrees 14 * 2 ^ 18

/-- Re-encoding of every member of the struct: `encode_fields` together with the two
reserved members at bits 3 and 17. -/
def encode_struct (m : max31855) : Nat :=
  encode_fields m + m.reserved3 * 2 ^ 3 + m.reserved17 * 2 ^ 17

/-! ## MAX31856 (`max31856.h`, `max31856.cpp`)

The driver reaches the chip only through the function pointer
`max31856_data_transfer`.  A value `xfer : DataTransfer κ σ` is what the pointer is
bound to; `κ` is the type behind `void *context` and `σ` the state of everything
behind the bus.  Every driver function takes the state and returns the state after
its transactions, next to its C result. -/

/-- The arguments of one call `max31856_data_transfer(context, buf0, len0, buf1, len1)`:
`buf0` holds the `len0` bytes of the first buffer; `buf1` is `none` for
`NULL, 0` and otherwise the `len1` bytes the second buffer holds when the call is
made. -/
structure Transfer where
  buf0 : List Nat
  buf1 : Option (List Nat)
deriving DecidableEq

/-- What `max31856_data_transfer` may be bound to: one bus transaction takes the
context and the state behind the bus, and gives the next state and the bytes it
stores into `buf1`, first byte first.  (The driver functions below never read
`buf0` again after the call.) -/
abbrev DataTransfer (κ σ : Type) : Type :=
  κ → σ → Transfer → σ × List Nat

/-- Contents of a `uint8_t` buffer after the bytes `stored` were written to its
start: a buffer keeps its length, a byte that was not written keeps its value, and
each written value is narrowed to 8 bits. -/
def store_bytes : List Nat → List Nat → List Nat
  | [], _ => []
  | b :: buf, [] => b :: buf
  | _ :: buf, x :: stored => (x % 256) :: store_bytes buf stored

/-- Model of `max31856_data_write`. -/
def max31856_data_write {κ σ : Type} (xfer : DataTransfer κ σ) (context : κ) (w : σ)
    (buffer : List Nat) : σ :=
  (xfer context w { buf0 := buffer, buf1 := none }).1

/-- Model of `max31856_data_write_and_read`; `read_len` is `read_buf.length`.
The result carries the contents of `read_buf` after the call. -/
def max31856_data_write_and_read {κ σ : Type} (xfer : DataTransfer κ σ) (context : κ)
    (w : σ) (write_buf read_buf : List Nat) : σ × List Nat :=
  -- memset(read_buf, 0xFF, read_len)
  let read_buf := List.replicate read_buf.length 0xFF
  let r := xfer context w { buf0 := write_buf, buf1 := some read_buf }
  (r.1, store_bytes read_buf r.2)

/-- Model of `max31856_write_register`. -/
def max31856_write_register {κ σ : Type} (xfer : DataTransfer κ σ) (context : κ) (w : σ)
    (address value : Nat) : σ :=
  -- address |= 0x80, in a uint8_t
  let address := (address ||| 0x80) % 256
  let buf := [address, value % 256]
  max31856_data_write xfer context w buf

/-- Model of `max31856_read_register`.  The list `read_buf` is the caller's buffer and
its length the `len` the caller passes.  The parameter `len` is a `uint8_t`: the
function sees `read_buf.length % 256` and hands on that many bytes at the start of
the buffer; the bytes behind them keep their values.  The result carries the whole
buffer after the call. -/
def max31856_read_register {κ σ : Type} (xfer : DataTransfer κ σ) (context : κ) (w : σ)
    (address : Nat) (read_buf : List Nat) : σ × List Nat :=
  let len := read_buf.length % 256
  let write_buf := [(address &&& 0x7F) % 256]
  let r := max31856_data_write_and_read xfer context w write_buf (read_buf.take len)
  (r.1, r.2 ++ read_buf.drop len)

/-- Model of `max31856_read_register_8`. -/
def max31856_read_register_8 {κ σ : Type} (xfer : DataTransfer κ σ) (context : κ) (w : σ)
    (addr : Nat) : σ × Nat :=
  let ret := [0]
  let r := max31856_read_register xfer context w addr ret
  (r.1, r.2.getD 0 0)

/-- Model of `max31856_read_register_16`. -/
def max31856_read_register_16 {κ σ : Type} (xfer : DataTransfer κ σ) (context : κ) (w : σ)
    (addr : Nat) : σ × Nat :=
  let buffer := [0, 0]
  let r := max31856_read_register xfer context w addr buffer
  let buffer := r.2
  (r.1, (((buffer.getD 0 0) <<< 8) % 2 ^ 16 + buffer.getD 1 0) % 2 ^ 16)

/-- Model of `max31856_read_register_24`. -/
def max31856_read_register_24 {κ σ : Type} (xfer : DataTransfer κ σ) (context : κ) (w : σ)
    (addr : Nat) : σ × Nat :=
  let buffer := [0, 0, 0]
  let r := max31856_read_register xfer context w addr buffer
  let buffer := r.2
  (r.1, (((buffer.getD 0 0) <<< 16) % 2 ^ 32 + ((buffer.getD 1 0) <<< 8) % 2 ^ 32
          + buffer.getD 2 0) % 2 ^ 32)

/-- Model of `max31856_set_continuous`.  The `int` mask `~(0x80)` (resp. `~(0x40)`) has
every bit set but bit 7 (resp. bit 6); `val` is a `uint8_t`, so the mask acts through
its low byte `0x7F` (resp. `0xBF`). -/
def max31856_set_continuous {κ σ : Type} (xfer : DataTransfer κ σ) (context : κ) (w : σ)
    (continuous : Bool) : σ :=
  let config0 := 0x00
  let r := max31856_read_register_8 xfer context w config0
  let val := r.2
  let val :=
    if continuous then
      -- val |= 0x80; val &= ~(0x40);
      let val := (val ||| 0x80) % 256
      (val &&& 0xBF) % 256
    else
      -- val &= ~(0x80); val |= (0x40);
      let val := (val &&& 0x7F) % 256
      (val ||| 0x40) % 256
  max31856_write_register xfer context r.1 config0 val

/-- Model of `max31856_prepare_read`. -/
def max31856_prepare_read {κ σ : Type} (xfer : DataTransfer κ σ) (context : κ) (w : σ) : σ :=
  let config0 := 0x00
  let r := max31856_read_register_8 xfer context w 0x00
  let val := r.2
  -- val &= ~(0x80);
  let val := (val &&& 0x7F) % 256
  -- val |= 0x40;
  let val := (val ||| 0x40) % 256
  max31856_write_register xfer context r.1 config0 val

/-- Model of `max31856_read_ready`. -/
def max31856_read_ready {κ σ : Type} (xfer : DataTransfer κ σ) (context : κ) (w : σ) :
    σ × Bool :=
  let config0 := 0x00
  let one_shot := 0x40
  let r := max31856_read_register_8 xfer context w config0
  (r.1, decide (r.2 &&& one_shot = 0))

/-- Model of `max31856_set_thermocouple_type_k`. -/
def max31856_set_thermocouple_type_k {κ σ : Type} (xfer : DataTransfer κ σ) (context : κ)
    (w : σ) : σ :=
  let config1 := 0x01
  let type_k := 3
  let r := max31856_read_register_8 xfer context w config1
  let val := r.2
  let val := (val &&& 0xF0) % 256
  let val := (val ||| (type_k &&& 0x0F)) % 256
  max31856_write_register xfer context r.1 config1 val

/-- Value of an `int32_t` whose 32 bits are those of `bits`. -/
def to_int32 (bits : Nat) : Int :=
  if 2 ^ 31 ≤ bits % 2 ^ 32 then ((bits % 2 ^ 32 : Nat) : Int) - 2 ^ 32
  else ((bits % 2 ^ 32 : Nat) : Int)

/-- Model of `max31856_read_c`.  The variable `temp128` is carried as its 32-bit
pattern `bits` through the two bit operations and read as a signed value for the
right shift: storing `temp128 | 0xFF000000` in the `int32_t` keeps the 32 bits
(two's complement), and `>>` on a negative `int32_t` is the arithmetic shift, which
`Int.shiftRight` is. -/
def max31856_read_c {κ σ : Type} (xfer : DataTransfer κ σ) (context : κ) (w : σ) :
    σ × Option ℚ :=
  let ready := max31856_read_ready xfer context w
  if !ready.2 then
    (ready.1, none)
  else
    let address := 0x0C
    let r := max31856_read_register_24 xfer context ready.1 address
    let bits := r.2
    -- if (temp128 & 0x800000) temp128 |= 0xFF000000;
    let bits := if bits &&& 0x800000 ≠ 0 then bits ||| 0xFF000000 else bits
    let temp128 : Int := to_int32 bits
    -- temp128 >>= 5;
    let temp128 := temp128 >>> (5 : Nat)
    let temp_c : ℚ := (temp128 : ℚ) * (1 / 128)
    (r.1, some temp_c)

/-- A bus that behaves as `xfer` does and also records, in order, the arguments of
every call made through `max31856_data_transfer`. -/
def recording {κ σ : Type} (xfer : DataTransfer κ σ) : DataTransfer κ (σ × List Transfer) :=
  fun context w t =>
    let r := xfer context w.1 t
    ((r.1, w.2 ++ [t]), r.2)

/-- A bus with no state that answers a read of config register 0x00 with the byte
`config0` and any other transaction with the three bytes `b0 b1 b2`. -/
def fixed_bus (config0 b0 b1 b2 : Nat) : DataTransfer Unit Unit :=
  fun _ w t => if t.buf0 = [0x00] then (w, [config0]) else (w, [b0, b1, b2])

/-- A bus with no state that stores nothing into the read buffer. -/
def silent_bus : DataTransfer Unit Unit :=
  fun _ w _ => (w, [])

/-- The fake bus of the specification's test of `set_continuous`, one that echoes
writes back as reads: the state is a register file; a transaction with no read buffer
whose two bytes are `[addr | 0x80, v]` stores `v` in register `addr`; a transaction
with the one byte `[addr]` and a read buffer returns the stored bytes of registers
`addr`, `addr + 1`, ..., one for each byte of the read buffer; anything else does
nothing. -/
def register_file : DataTransfer Unit (Nat → Nat) :=
  fun _ regs t =>
    match t.buf0, t.buf1 with
    | [a, v], none =>
      if a &&& 0x80 ≠ 0 then (Function.update regs (a &&& 0x7F) v, []) else (regs, [])
    | [a], some buf => (regs, (List.range buf.length).map (fun i => regs (a + i)))
    | _, _ => (regs, [])

/-! ## Bit-field reads as arithmetic -/

theorem bitfield_u_eq (u32 pos w : Nat) : bitfield_u u32 pos w = u32 / 2 ^ pos % 2 ^ w := by
  simp [bitfield_u, Nat.shiftRight_eq_div_pow]

theorem and_two_pow_ne_zero (x k : Nat) : x &&& 2 ^ k ≠ 0 ↔ x / 2 ^ k % 2 = 1 := by
  rw [Nat.and_two_pow]
  have hp : 0 < 2 ^ k := Nat.two_pow_pos k
  cases h : x.testBit k
  · have hb := h
    rw [Nat.testBit_to_div_mod] at hb
    simp at hb
    simp [hb]
  · have hb := h
    rw [Nat.testBit_to_div_mod] at hb
    simp at hb
    simp [hb]

theorem top_bit_iff (x p : Nat) (hx : x < 2 * p) : x / p % 2 = 1 ↔ p ≤ x := by
  constructor
  · intro h
    by_contra hlt
    rw [Nat.div_eq_of_lt (by omega)] at h
    omega
  · intro h
    have h1 : x / p = 1 := by
      apply Nat.div_eq_of_lt_le
      · omega
      · omega
    rw [h1]

theorem bitfield_i_eq (u32 pos w : Nat) (hw : 0 < w) :
    bitfield_i u32 pos w =
      if 2 ^ (w - 1) ≤ u32 / 2 ^ pos % 2 ^ w
      then ((u32 / 2 ^ pos % 2 ^ w : Nat) : Int) - 2 ^ w
      else ((u32 / 2 ^ pos % 2 ^ w : Nat) : Int) := by
  have hpow : 2 ^ w = 2 * 2 ^ (w - 1) := by
    rw [← Nat.pow_succ']
    congr 1
    omega
  have hlt : u32 / 2 ^ pos % 2 ^ w < 2 * 2 ^ (w - 1) := by
    rw [← hpow]
    exact Nat.mod_lt _ (Nat.two_pow_pos w)
  have key := top_bit_iff (u32 / 2 ^ pos % 2 ^ w) (2 ^ (w - 1)) hlt
  unfold bitfield_i
  simp only [bitfield_u_eq, and_two_pow_ne_zero, key]

theorem testBit_false_iff (x k : Nat) : x.testBit k = false ↔ x / 2 ^ k % 2 = 0 := by
  rw [Nat.testBit_to_div_mod]
  simp

theorem testBit_true_iff (x k : Nat) : x.testBit k = true ↔ x / 2 ^ k % 2 = 1 := by
  rw [Nat.testBit_to_div_mod]
  simp

theorem and_two_pow_eq (x k : Nat) : x &&& 2 ^ k = 2 ^ k * (x / 2 ^ k % 2) := by
  rw [Nat.and_two_pow]
  cases h : x.testBit k
  · have hb := h
    rw [Nat.testBit_to_div_mod] at hb
    simp at hb
    simp [hb]
  · have hb := h
    rw [Nat.testBit_to_div_mod] at hb
    simp at hb
    simp [hb]

theorem twos_complement_eq (w u : Nat) (hw : 0 < w) (hu : u < 2 ^ w) :
    twos_complement w u = if 2 ^ (w - 1) ≤ u then (u : Int) - 2 ^ w else (u : Int) := by
  have hpow : 2 ^ w = 2 * 2 ^ (w - 1) := by
    rw [← Nat.pow_succ']
    congr 1
    omega
  have key := top_bit_iff u (2 ^ (w - 1)) (by omega)
  unfold twos_complement
  simp only [testBit_true_iff, key]

/-- The fault mask 0x00010007 selects bits 0, 1, 2 and 16. -/
theorem and_fault_mask (raw : Nat) :
    raw &&& 0x00010007 = 2 ^ 16 * (raw / 2 ^ 16 % 2) + raw % 2 ^ 3 := by
  have hmask : (0x00010007 : Nat) = 2 ^ 16 ||| (2 ^ 3 - 1) := by decide
  have hlt : raw % 2 ^ 3 < 2 ^ 16 := by
    have h8 : raw % 2 ^ 3 < 2 ^ 3 := Nat.mod_lt _ (by decide)
    have h816 : (2 : Nat) ^ 3 < 2 ^ 16 := by decide
    omega
  rw [hmask, Nat.and_or_distrib_left, and_two_pow_eq, Nat.and_pow_two_sub_one_eq_mod,
    Nat.mul_add_lt_is_or hlt]

/-- The members of the punned struct, as quotients and remainders of the word. -/
theorem pun_max_eq (u32 : Nat) :
    pun_max u32 =
      { err_oc := u32 % 2
        err_scg := u32 / 2 % 2
        err_scv := u32 / 4 % 2
        reserved3 := u32 / 8 % 2
        internal_sixteenths :=
          if 2048 ≤ u32 / 16 % 4096 then ((u32 / 16 % 4096 : Nat) : Int) - 4096
          else ((u32 / 16 % 4096 : Nat) : Int)
        fault := u32 / 65536 % 2
        reserved17 := u32 / 131072 % 2
        quarter_degrees :=
          if 8192 ≤ u32 / 262144 % 16384 then ((u32 / 262144 % 16384 : Nat) : Int) - 16384
          else ((u32 / 262144 % 16384 : Nat) : Int) } := by
  unfold pun_max
  rw [bitfield_i_eq u32 4 12 (by decide), bitfield_i_eq u32 18 14 (by decide)]
  simp only [bitfield_u_eq]
  norm_num

theorem field_bits_12 (x : Nat) :
    field_bits (if 2048 ≤ x % 4096 then ((x % 4096 : Nat) : Int) - 4096
      else ((x % 4096 : Nat) : Int)) 12 = x % 4096 := by
  unfold field_bits
  split_ifs <;> omega

theorem field_bits_14 (x : Nat) :
    field_bits (if 8192 ≤ x % 16384 then ((x % 16384 : Nat) : Int) - 16384
      else ((x % 16384 : Nat) : Int)) 14 = x % 16384 := by
  unfold field_bits
  split_ifs <;> omega

theorem word_split (r : Nat) (hr : r < 4294967296) :
    r % 2 + r / 2 % 2 * 2 + r / 4 % 2 * 4 + r / 8 % 2 * 8 + r / 16 % 4096 * 16
      + r / 65536 % 2 * 65536 + r / 131072 % 2 * 131072 + r / 262144 % 16384 * 262144 = r := by
  omega

theorem from_u32_some (old : max31855) (raw : Nat) (hraw : raw < 2 ^ 32) :
    max31855_from_u32 (some old) raw
      = (some (pun_max raw), max31855_error (some (pun_max raw))) := by
  have h : raw % 2 ^ 32 = raw := Nat.mod_eq_of_lt hraw
  simp only [max31855_from_u32, h]

/-! ## MAX31855: decode, fault code, temperatures -/

/-- C3, as the claim states it, fails: decoding the word 8 (only the reserved bit 3
set) and re-encoding the four error/fault bits and the two signed fields gives 0. -/
theorem max31855_reencode_fields_drops_reserved :
    (max31855_from_u32 (some max31855_zeroed) 8).1.map encode_fields = some 0 ∧
      (max31855_from_u32 (some max31855_zeroed) 8).1.map encode_fields ≠ some 8 := by
  decide

/-- C3, amended: for every 32-bit word `r`, decoding `r` and re-encoding every member
of the struct (the reserved bits 3 and 17 included) reproduces `r`; re-encoding only
the four error/fault bits and the two signed fields reproduces `r` exactly when bits
3 and 17 of `r` are clear. -/
theorem max31855_decode_reencode (old : max31855) (r : Nat) (hr : r < 2 ^ 32) :
    (max31855_from_u32 (some old) r).1.map encode_struct = some r ∧
      ((max31855_from_u32 (some old) r).1.map encode_fields = some r ↔
        (r.testBit 3 = false ∧ r.testBit 17 = false)) := by
  rw [from_u32_some old r hr]
  simp only [Option.map_some', Option.some.injEq, testBit_false_iff, pun_max_eq,
    encode_struct, encode_fields, field_bits_12, field_bits_14]
  norm_num at hr ⊢
  have hsplit := word_split r hr
  constructor
  · omega
  · omega

/-- Witness of `max31855_decode_reencode` at the word 0xFFFFFFFF. -/
theorem max31855_decode_reencode_witness :
    0xFFFFFFFF < 2 ^ 32 ∧
      ((max31855_from_u32 (some max31855_zeroed) 0xFFFFFFFF).1.map encode_struct
          = some 0xFFFFFFFF ∧
        ((max31855_from_u32 (some max31855_zeroed) 0xFFFFFFFF).1.map encode_fields
            = some 0xFFFFFFFF ↔
          (Nat.testBit 0xFFFFFFFF 3 = false ∧ Nat.testBit 0xFFFFFFFF 17 = false))) :=
  ⟨by decide, max31855_decode_reencode max31855_zeroed 0xFFFFFFFF (by decide)⟩

/-- C4: for every 32-bit raw value, `max31855_degrees_c` of the decoded reading is
`q / 4`, where `q` is bits 18-31 of raw read as a 14-bit two's-complement integer,
so `-8192 ≤ q ≤ 8191`; bits 18-31 equal to 0b11111111111101 give -0.75. -/
theorem max31855_degrees_c_decoded (old : max31855) (raw : Nat) (hraw : raw < 2 ^ 32) :
    max31855_degrees_c (max31855_from_u32 (some old) raw).1
        = some ((twos_complement 14 (raw / 2 ^ 18) : ℚ) / 4) ∧
      -8192 ≤ twos_complement 14 (raw / 2 ^ 18) ∧
      twos_complement 14 (raw / 2 ^ 18) ≤ 8191 ∧
      (raw / 2 ^ 18 = 0b11111111111101 →
        max31855_degrees_c (max31855_from_u32 (some old) raw).1 = some (-(3 : ℚ) / 4)) := by
  have h18 : raw / 2 ^ 18 = raw / 262144 := by norm_num
  have hu : raw / 262144 < 16384 := by
    norm_num at hraw
    omega
  have hmod : raw / 262144 % 16384 = raw / 262144 := Nat.mod_eq_of_lt hu
  have hq := twos_complement_eq 14 (raw / 262144) (by decide) (by norm_num; exact hu)
  rw [from_u32_some old raw hraw, h18, hq]
  simp only [max31855_degrees_c, pun_max_eq, hmod]
  generalize raw / 262144 = u at *
  have e1 : (2 : ℕ) ^ (14 - 1) = 8192 := by norm_num
  have e2 : (2 : ℤ) ^ 14 = 16384 := by norm_num
  simp only [e1, e2]
  refine ⟨?_, ?_, ?_, ?_⟩
  · split_ifs <;> norm_num
  · split_ifs <;> omega
  · split_ifs <;> omega
  · intro h
    rw [h]
    norm_num

/-- Witness of `max31855_degrees_c_decoded` at the word 0xFFF40000, whose bits 18-31
are 0b11111111111101. -/
theorem max31855_degrees_c_decoded_witness :
    0xFFF40000 < 2 ^ 32 ∧
      max31855_degrees_c (max31855_from_u32 (some max31855_zeroed) 0xFFF40000).1
        = some (-(3 : ℚ) / 4) :=
  ⟨by decide,
    (max31855_degrees_c_decoded max31855_zeroed 0xFFF40000 (by decide)).2.2.2 (by decide)⟩

/-- C5: for every 32-bit raw value, `max31855_internal_degrees_c` of the decoded
reading is `i / 16`, where `i` is bits 4-15 of raw read as a 12-bit two's-complement
integer, so `-2048 ≤ i ≤ 2047`; no other bit of raw has any influence. -/
theorem max31855_internal_degrees_c_decoded (old : max31855) (raw : Nat)
    (hraw : raw < 2 ^ 32) :
    max31855_internal_degrees_c (max31855_from_u32 (some old) raw).1
        = some ((twos_complement 12 (raw / 2 ^ 4 % 2 ^ 12) : ℚ) / 16) ∧
      -2048 ≤ twos_complement 12 (raw / 2 ^ 4 % 2 ^ 12) ∧
      twos_complement 12 (raw / 2 ^ 4 % 2 ^ 12) ≤ 2047 ∧
      (∀ (old2 : max31855) (raw2 : Nat), raw2 < 2 ^ 32 →
        raw2 / 2 ^ 4 % 2 ^ 12 = raw / 2 ^ 4 % 2 ^ 12 →
        max31855_internal_degrees_c (max31855_from_u32 (some old2) raw2).1
          = max31855_internal_degrees_c (max31855_from_u32 (some old) raw).1) := by
  have h4 : ∀ x : Nat, x / 2 ^ 4 % 2 ^ 12 = x / 16 % 4096 := by
    intro x
    norm_num
  have hu : raw / 16 % 4096 < 4096 := Nat.mod_lt _ (by decide)
  have hq := twos_complement_eq 12 (raw / 16 % 4096) (by decide) (by norm_num; exact hu)
  have e1 : (2 : ℕ) ^ (12 - 1) = 2048 := by norm_num
  have e2 : (2 : ℤ) ^ 12 = 4096 := by norm_num
  refine ⟨?_, ?_, ?_, ?_⟩
  · rw [from_u32_some old raw hraw, h4, hq]
    simp only [max31855_internal_degrees_c, pun_max_eq, e1, e2]
    generalize raw / 16 % 4096 = u
    split_ifs <;> norm_num
  · rw [h4, hq]
    simp only [e1, e2]
    split_ifs <;> omega
  · rw [h4, hq]
    simp only [e1, e2]
    split_ifs <;> omega
  · intro old2 raw2 hraw2 hsame
    rw [h4, h4] at hsame
    rw [from_u32_some old raw hraw, from_u32_some old2 raw2 hraw2]
    simp only [max31855_internal_degrees_c, pun_max_eq, hsame]

/-- Witness of `max31855_internal_degrees_c_decoded` at the word 0x0000FFF0, whose
bits 4-15 are all set (`i = -1`). -/
theorem max31855_internal_degrees_c_decoded_witness :
    0x0000FFF0 < 2 ^ 32 ∧
      max31855_internal_degrees_c (max31855_from_u32 (some max31855_zeroed) 0x0000FFF0).1
        = some ((twos_complement 12 (0x0000FFF0 / 2 ^ 4 % 2 ^ 12) : ℚ) / 16) :=
  ⟨by decide,
    (max31855_internal_degrees_c_decoded max31855_zeroed 0x0000FFF0 (by decide)).1⟩

/-- C6: for every present reading, `max31855_error` returns the first matching code
of the precedence 1 (`err_oc`), 2 (`err_scg`), 3 (`err_scv`), 4 (`fault`), else 0; a
reading with all four bits set yields 1. -/
theorem max31855_error_precedence (m : max31855) :
    (m.err_oc ≠ 0 → max31855_error (some m) = 1) ∧
      (m.err_oc = 0 → m.err_scg ≠ 0 → max31855_error (some m) = 2) ∧
      (m.err_oc = 0 → m.err_scg = 0 → m.err_scv ≠ 0 → max31855_error (some m) = 3) ∧
      (m.err_oc = 0 → m.err_scg = 0 → m.err_scv = 0 → m.fault ≠ 0 →
        max31855_error (some m) = 4) ∧
      (m.err_oc = 0 → m.err_scg = 0 → m.err_scv = 0 → m.fault = 0 →
        max31855_error (some m) = 0) ∧
      (m.err_oc = 1 → m.err_scg = 1 → m.err_scv = 1 → m.fault = 1 →
        max31855_error (some m) = 1 ∧ max31855_error (some m) ≠ 2 ∧
          max31855_error (some m) ≠ 3 ∧ max31855_error (some m) ≠ 4 ∧
          max31855_error (some m) ≠ 0) := by
  refine ⟨?_, ?_, ?_, ?_, ?_, ?_⟩
  · intro h1
    simp [max31855_error, h1]
  · intro h1 h2
    simp [max31855_error, h1, h2]
  · intro h1 h2 h3
    simp [max31855_error, h1, h2, h3]
  · intro h1 h2 h3 h4
    simp [max31855_error, h1, h2, h3, h4]
  · intro h1 h2 h3 h4
    simp [max31855_error, h1, h2, h3, h4]
  · intro h1 h2 h3 h4
    simp [max31855_error, h1, h2, h3, h4]

/-- The code of a decoded word, from its bits 0, 1, 2 and 16. -/
theorem error_pun_max (u32 : Nat) :
    max31855_error (some (pun_max u32)) =
      if u32 % 2 ≠ 0 then 1
      else if u32 / 2 % 2 ≠ 0 then 2
      else if u32 / 4 % 2 ≠ 0 then 3
      else if u32 / 65536 % 2 ≠ 0 then 4
      else 0 := by
  simp only [max31855_error, pun_max_eq]

/-- C7: for every 32-bit raw value and present output target, `max31855_from_u32`
returns the `max31855_error` code of the reading it decoded; the code is 0 exactly
when `raw & 0x00010007 = 0`; two raw values that agree on bits 0, 1, 2 and 16 get
the same code, whatever their temperature fields and reserved bits 3 and 17. -/
theorem max31855_from_u32_code (old : max31855) (raw : Nat) (hraw : raw < 2 ^ 32) :
    (max31855_from_u32 (some old) raw).2
        = max31855_error (max31855_from_u32 (some old) raw).1 ∧
      ((max31855_from_u32 (some old) raw).2 = 0 ↔ raw &&& 0x00010007 = 0) ∧
      (∀ (old2 : max31855) (raw2 : Nat), raw2 < 2 ^ 32 →
        raw2 &&& 0x00010007 = raw &&& 0x00010007 →
        (max31855_from_u32 (some old2) raw2).2 = (max31855_from_u32 (some old) raw).2) := by
  refine ⟨?_, ?_, ?_⟩
  · rw [from_u32_some old raw hraw]
  · rw [from_u32_some old raw hraw, and_fault_mask]
    simp only [error_pun_max]
    norm_num
    split_ifs <;> omega
  · intro old2 raw2 hraw2 hsame
    rw [and_fault_mask, and_fault_mask] at hsame
    rw [from_u32_some old raw hraw, from_u32_some old2 raw2 hraw2]
    simp only [error_pun_max]
    norm_num at hsame ⊢
    have a1 : raw2 % 2 = raw % 2 := by omega
    have a2 : raw2 / 2 % 2 = raw / 2 % 2 := by omega
    have a3 : raw2 / 4 % 2 = raw / 4 % 2 := by omega
    have a4 : raw2 / 65536 % 2 = raw / 65536 % 2 := by omega
    rw [a1, a2, a3, a4]

/-- Witness of `max31855_from_u32_code` at the word 0xFFFEFFF8: every temperature
bit and both reserved bits set, bits 0, 1, 2 and 16 clear. -/
theorem max31855_from_u32_code_witness :
    0xFFFEFFF8 < 2 ^ 32 ∧
      ((max31855_from_u32 (some max31855_zeroed) 0xFFFEFFF8).2 = 0 ↔
        0xFFFEFFF8 &&& 0x00010007 = 0) :=
  ⟨by decide, (max31855_from_u32_code max31855_zeroed 0xFFFEFFF8 (by decide)).2.1⟩

/-- C8, as the claim states it, fails: the word 1 has its fault flag (bit 16) clear
and `err_oc` set, and the reported code is 1, not 0; the word 0 differs from it in
`err_oc` alone and gets code 0. -/
theorem max31855_error_bit_reported_without_fault :
    Nat.testBit 1 16 = false ∧
      (max31855_from_u32 (some max31855_zeroed) 1).2 = 1 ∧
      max31855_error (max31855_from_u32 (some max31855_zeroed) 1).1 = 1 ∧
      (max31855_from_u32 (some max31855_zeroed) 0).2 = 0 := by
  decide

/-- C8, amended: for every decoded reading whose fault flag (bit 16) is clear, the
code reported by `max31855_from_u32`, which is the code `max31855_error` gives the
decoded reading, is 0 exactly when `err_oc`, `err_scg` and `err_scv` (bits 0, 1, 2)
are all clear; a set error bit is reported by its precedence (1, 2, 3) although
fault is clear. -/
theorem max31855_error_with_fault_clear (old : max31855) (raw : Nat) (hraw : raw < 2 ^ 32)
    (hfault : raw.testBit 16 = false) :
    (max31855_from_u32 (some old) raw).2
        = max31855_error (max31855_from_u32 (some old) raw).1 ∧
      (max31855_from_u32 (some old) raw).2 =
        (if raw.testBit 0 then 1 else if raw.testBit 1 then 2
          else if raw.testBit 2 then 3 else 0) ∧
      ((max31855_from_u32 (some old) raw).2 = 0 ↔
        (raw.testBit 0 = false ∧ raw.testBit 1 = false ∧ raw.testBit 2 = false)) := by
  rw [testBit_false_iff] at hfault
  norm_num at hfault
  rw [from_u32_some old raw hraw]
  simp only [error_pun_max, testBit_true_iff, testBit_false_iff]
  norm_num
  refine ⟨?_, ?_⟩
  · split_ifs <;> omega
  · split_ifs <;> omega

/-- Witness of `max31855_error_with_fault_clear` at the word 6 (`err_scg` and
`err_scv` set, fault clear), which reports code 2. -/
theorem max31855_error_with_fault_clear_witness :
    6 < 2 ^ 32 ∧ Nat.testBit 6 16 = false ∧
      (max31855_from_u32 (some max31855_zeroed) 6).2 =
        (if Nat.testBit 6 0 then 1 else if Nat.testBit 6 1 then 2
          else if Nat.testBit 6 2 then 3 else 0) :=
  ⟨by decide, by decide,
    (max31855_error_with_fault_clear max31855_zeroed 6 (by decide) (by decide)).2.1⟩

/-- C9: with an absent output target `max31855_from_u32` returns -1, with an absent
reading `max31855_error` returns -1 and both temperature functions return
not-a-number; for every present reading the code lies in 0..4 (never -1) and both
temperature functions return a number. -/
theorem max31855_absent_reading :
    (∀ raw : Nat, max31855_from_u32 none raw = (none, -1)) ∧
      max31855_error none = -1 ∧
      max31855_degrees_c none = none ∧
      max31855_internal_degrees_c none = none ∧
      (∀ m : max31855,
        0 ≤ max31855_error (some m) ∧ max31855_error (some m) ≤ 4 ∧
          max31855_error (some m) ≠ -1 ∧
          (∃ c : ℚ, max31855_degrees_c (some m) = some c) ∧
          (∃ c : ℚ, max31855_internal_degrees_c (some m) = some c)) ∧
      (∀ (old : max31855) (raw : Nat),
        0 ≤ (max31855_from_u32 (some old) raw).2 ∧
          (max31855_from_u32 (some old) raw).2 ≤ 4 ∧
          (∃ m : max31855, (max31855_from_u32 (some old) raw).1 = some m)) := by
  have hcode : ∀ m : max31855,
      0 ≤ max31855_error (some m) ∧ max31855_error (some m) ≤ 4 := by
    intro m
    simp only [max31855_error]
    split_ifs <;> omega
  refine ⟨fun _ => rfl, rfl, rfl, rfl, ?_, ?_⟩
  · intro m
    refine ⟨(hcode m).1, (hcode m).2, ?_, ⟨_, rfl⟩, ⟨_, rfl⟩⟩
    have h := (hcode m).1
    omega
  · intro old raw
    simp only [max31855_from_u32]
    exact ⟨(hcode _).1, (hcode _).2, ⟨_, rfl⟩⟩

/-! ## MAX31856: the register layer -/

theorem store_bytes_length (buf stored : List Nat) :
    (store_bytes buf stored).length = buf.length := by
  induction buf generalizing stored with
  | nil => simp [store_bytes]
  | cons b buf ih =>
    cases stored with
    | nil => simp [store_bytes]
    | cons x stored => simp [store_bytes, ih]

theorem store_bytes_lt (buf stored : List Nat) (hbuf : ∀ b ∈ buf, b < 256) :
    ∀ b ∈ store_bytes buf stored, b < 256 := by
  induction buf generalizing stored with
  | nil => simp [store_bytes]
  | cons b buf ih =>
    cases stored with
    | nil => simpa [store_bytes] using hbuf
    | cons x stored =>
      intro y hy
      simp only [store_bytes, List.mem_cons] at hy
      rcases hy with hy | hy
      · rw [hy]
        exact Nat.mod_lt _ (by decide)
      · exact ih stored (fun z hz => hbuf z (List.mem_cons_of_mem _ hz)) y hy

theorem read_register_8_eq {κ σ : Type} (xfer : DataTransfer κ σ) (context : κ) (w : σ)
    (addr : Nat) :
    max31856_read_register_8 xfer context w addr =
      ((xfer context w { buf0 := [(addr &&& 0x7F) % 256], buf1 := some [0xFF] }).1,
        (store_bytes [0xFF]
          (xfer context w { buf0 := [(addr &&& 0x7F) % 256], buf1 := some [0xFF] }).2).getD
            0 0) := by
  simp only [max31856_read_register_8, max31856_read_register, max31856_data_write_and_read,
    List.length_cons, List.length_nil, Nat.reduceAdd, Nat.reduceMod, List.take_succ_cons,
    List.take_zero, List.drop_succ_cons, List.drop_zero, List.append_nil, List.replicate]

theorem read_register_24_eq {κ σ : Type} (xfer : DataTransfer κ σ) (context : κ) (w : σ)
    (addr b0 b1 b2 : Nat)
    (hv : store_bytes [0xFF, 0xFF, 0xFF]
      (xfer context w
        { buf0 := [(addr &&& 0x7F) % 256], buf1 := some [0xFF, 0xFF, 0xFF] }).2
        = [b0, b1, b2]) :
    max31856_read_register_24 xfer context w addr =
      ((xfer context w
          { buf0 := [(addr &&& 0x7F) % 256], buf1 := some [0xFF, 0xFF, 0xFF] }).1,
        b0 * 65536 + b1 * 256 + b2) ∧ b0 < 256 ∧ b1 < 256 ∧ b2 < 256 := by
  have hlt := store_bytes_lt [0xFF, 0xFF, 0xFF]
    (xfer context w
      { buf0 := [(addr &&& 0x7F) % 256], buf1 := some [0xFF, 0xFF, 0xFF] }).2
    (by decide)
  rw [hv] at hlt
  have h0 : b0 < 256 := hlt b0 (by simp)
  have h1 : b1 < 256 := hlt b1 (by simp)
  have h2 : b2 < 256 := hlt b2 (by simp)
  refine ⟨?_, h0, h1, h2⟩
  simp only [max31856_read_register_24, max31856_read_register, max31856_data_write_and_read,
    List.length_cons, List.length_nil, List.replicate, hv, List.getD_cons_zero,
    List.getD_cons_succ, Nat.shiftLeft_eq]
  congr 1
  norm_num
  omega

/-- The value `max31856_read_c` computes from a 24-bit register value `v`. -/
theorem temp128_eq (v : Nat) (hv : v < 2 ^ 24) :
    (to_int32 (if v &&& 0x800000 ≠ 0 then v ||| 0xFF000000 else v)) >>> (5 : Nat)
      = twos_complement 24 v / 32 := by
  have hbit : v &&& 0x800000 ≠ 0 ↔ 2 ^ 23 ≤ v := by
    have h := and_two_pow_ne_zero v 23
    have k := top_bit_iff v (2 ^ 23) (by norm_num at hv ⊢; omega)
    rw [k] at h
    exact h
  have hor : v ||| 0xFF000000 = 2 ^ 24 * 255 + v := by
    rw [Nat.mul_add_lt_is_or hv 255, Nat.or_comm]
  rw [Int.shiftRight_eq_div_pow, twos_complement_eq 24 v (by decide) hv]
  simp only [hbit, hor, to_int32]
  norm_num at hv ⊢
  split_ifs <;> omega

theorem read_register_8_config0 {κ σ : Type} (xfer : DataTransfer κ σ) (context : κ)
    (w : σ) (c : Nat)
    (hc : store_bytes [0xFF] (xfer context w { buf0 := [0x00], buf1 := some [0xFF] }).2
      = [c]) :
    max31856_read_register_8 xfer context w 0x00
      = ((xfer context w { buf0 := [0x00], buf1 := some [0xFF] }).1, c) := by
  rw [read_register_8_eq]
  show (_, (store_bytes [0xFF]
    (xfer context w { buf0 := [0x00], buf1 := some [0xFF] }).2).getD 0 0) = _
  rw [hc]
  rfl

/-- The result of `max31856_read_c` when the conversion is ready, in integer form. -/
theorem read_c_ready {κ σ : Type} (xfer : DataTransfer κ σ) (context : κ) (w : σ)
    (c b0 b1 b2 : Nat)
    (hc : store_bytes [0xFF] (xfer context w { buf0 := [0x00], buf1 := some [0xFF] }).2
      = [c])
    (hready : c &&& 0x40 = 0)
    (hv : store_bytes [0xFF, 0xFF, 0xFF]
      (xfer context (xfer context w { buf0 := [0x00], buf1 := some [0xFF] }).1
        { buf0 := [0x0C], buf1 := some [0xFF, 0xFF, 0xFF] }).2 = [b0, b1, b2]) :
    max31856_read_c xfer context w =
      ((xfer context (xfer context w { buf0 := [0x00], buf1 := some [0xFF] }).1
          { buf0 := [0x0C], buf1 := some [0xFF, 0xFF, 0xFF] }).1,
        some (((twos_complement 24 (b0 * 65536 + b1 * 256 + b2) / 32 : ℤ) : ℚ) / 128)) ∧
      b0 * 65536 + b1 * 256 + b2 < 2 ^ 24 := by
  have h24 := read_register_24_eq xfer context
    (xfer context w { buf0 := [0x00], buf1 := some [0xFF] }).1 0x0C b0 b1 b2 hv
  have hlt : b0 * 65536 + b1 * 256 + b2 < 2 ^ 24 := by
    have h0 := h24.2.1
    have h1 := h24.2.2.1
    have h2 := h24.2.2.2
    norm_num
    omega
  refine ⟨?_, hlt⟩
  have h8 := read_register_8_config0 xfer context w c hc
  simp only [max31856_read_c, max31856_read_ready, h8, hready, h24.1, decide_True,
    Bool.not_true, Bool.false_eq_true, if_false, temp128_eq _ hlt]
  congr 2
  rw [mul_one_div]

/-! ## MAX31856: reading the temperature -/

/-- C1: when the transport answers the read of config register 0x00 with a byte `c`
whose bit 6 is clear, and the read of register 0x0C with the bytes `b0 b1 b2`, that
is the 24-bit value `v = b0 * 65536 + b1 * 256 + b2`, `max31856_read_c` returns
`floor (s / 32) / 128`, `s` being `v` read as a 24-bit two's-complement integer;
`v = 0x7FFFE0` gives `262143 / 128` and `v = 0xFFFFE0` gives `-1 / 128`. -/
theorem max31856_read_c_value {κ σ : Type} (xfer : DataTransfer κ σ) (context : κ) (w : σ)
    (c b0 b1 b2 : Nat)
    (hc : store_bytes [0xFF] (xfer context w { buf0 := [0x00], buf1 := some [0xFF] }).2
      = [c])
    (hready : c &&& 0x40 = 0)
    (hv : store_bytes [0xFF, 0xFF, 0xFF]
      (xfer context (xfer context w { buf0 := [0x00], buf1 := some [0xFF] }).1
        { buf0 := [0x0C], buf1 := some [0xFF, 0xFF, 0xFF] }).2 = [b0, b1, b2]) :
    (max31856_read_c xfer context w).2
        = some ((⌊(twos_complement 24 (b0 * 65536 + b1 * 256 + b2) : ℚ) / 32⌋ : ℚ) / 128) ∧
      (b0 * 65536 + b1 * 256 + b2 = 0x7FFFE0 →
        (max31856_read_c xfer context w).2 = some (((0x7FFFE0 >>> 5 : Nat) : ℚ) / 128) ∧
        (max31856_read_c xfer context w).2 = some (262143 / 128)) ∧
      (b0 * 65536 + b1 * 256 + b2 = 0xFFFFE0 →
        (max31856_read_c xfer context w).2 = some (-1 / 128)) := by
  have hmain := (read_c_ready xfer context w c b0 b1 b2 hc hready hv).1
  have hfloor : ∀ s : ℤ, ⌊(s : ℚ) / 32⌋ = s / 32 := by
    intro s
    have h := Rat.floor_intCast_div_natCast s 32
    simpa using h
  rw [hmain, hfloor]
  refine ⟨rfl, ?_, ?_⟩
  · intro h
    rw [h]
    have h1 : twos_complement 24 0x7FFFE0 / 32 = 262143 := by decide
    have h2 : (0x7FFFE0 >>> 5 : Nat) = 262143 := by decide
    rw [h1, h2]
    norm_num
  · intro h
    rw [h]
    have h1 : twos_complement 24 0xFFFFE0 / 32 = -1 := by decide
    rw [h1]
    norm_num

/-- Witness of `max31856_read_c_value` on a bus that answers config register 0x00
with 0x00 and register 0x0C with 0xFF 0xFF 0xE0. -/
theorem max31856_read_c_value_witness :
    store_bytes [0xFF]
        (fixed_bus 0x00 0xFF 0xFF 0xE0 () () { buf0 := [0x00], buf1 := some [0xFF] }).2
        = [0x00] ∧
      0x00 &&& 0x40 = 0 ∧
      store_bytes [0xFF, 0xFF, 0xFF]
        (fixed_bus 0x00 0xFF 0xFF 0xE0 ()
          (fixed_bus 0x00 0xFF 0xFF 0xE0 () () { buf0 := [0x00], buf1 := some [0xFF] }).1
          { buf0 := [0x0C], buf1 := some [0xFF, 0xFF, 0xFF] }).2 = [0xFF, 0xFF, 0xE0] ∧
      (max31856_read_c (fixed_bus 0x00 0xFF 0xFF 0xE0) () ()).2 = some (-1 / 128) :=
  ⟨by decide, by decide, by decide,
    (max31856_read_c_value (fixed_bus 0x00 0xFF 0xFF 0xE0) () () 0x00 0xFF 0xFF 0xE0
      (by decide) (by decide) (by decide)).2.2 (by decide)⟩

/-- C2: whatever the transport, `max31856_read_c` returns not-a-number when the byte
`c` it gets for config register 0x00 has bit 6 set, whatever the temperature register
holds, and returns a number when that bit is clear. -/
theorem max31856_read_c_nan_iff_pending {κ σ : Type} (xfer : DataTransfer κ σ)
    (context : κ) (w : σ) (c : Nat)
    (hc : store_bytes [0xFF] (xfer context w { buf0 := [0x00], buf1 := some [0xFF] }).2
      = [c]) :
    (c &&& 0x40 ≠ 0 → (max31856_read_c xfer context w).2 = none) ∧
      (c &&& 0x40 = 0 → ∃ t : ℚ, (max31856_read_c xfer context w).2 = some t) ∧
      ((max31856_read_c xfer context w).2 = none ↔ c &&& 0x40 ≠ 0) := by
  have h8 := read_register_8_config0 xfer context w c hc
  have hset : c &&& 0x40 ≠ 0 → (max31856_read_c xfer context w).2 = none := by
    intro h
    simp [max31856_read_c, max31856_read_ready, h8, h]
  have hclear : c &&& 0x40 = 0 → ∃ t : ℚ, (max31856_read_c xfer context w).2 = some t := by
    intro h
    simp [max31856_read_c, max31856_read_ready, h8, h]
  refine ⟨hset, hclear, ?_, hset⟩
  intro hnone
  by_contra hnot
  obtain ⟨t, ht⟩ := hclear hnot
  rw [ht] at hnone
  exact Option.noConfusion hnone

/-- Witness of `max31856_read_c_nan_iff_pending` on a bus that answers config
register 0x00 with 0x40 (conversion pending) and register 0x0C with 0x01 0x02 0x03. -/
theorem max31856_read_c_nan_iff_pending_witness :
    store_bytes [0xFF]
        (fixed_bus 0x40 0x01 0x02 0x03 () () { buf0 := [0x00], buf1 := some [0xFF] }).2
        = [0x40] ∧
      0x40 &&& 0x40 ≠ 0 ∧
      (max31856_read_c (fixed_bus 0x40 0x01 0x02 0x03) () ()).2 = none :=
  ⟨by decide, by decide,
    (max31856_read_c_nan_iff_pending (fixed_bus 0x40 0x01 0x02 0x03) () () 0x40
      (by decide)).1 (by decide)⟩

/-! ## MAX31856: the conversion mode -/

set_option maxRecDepth 100000 in
/-- What the two branches of `max31856_set_continuous` make of a byte. -/
theorem config0_bytes :
    ∀ old : Nat, old < 256 →
      (((old ||| 0x80) % 256 &&& 0xBF) % 256 = old % 64 + 128 ∧
        ((old &&& 0x7F) % 256 ||| 0x40) % 256 = old % 64 + 64) ∧
      ((old ||| 0x80) &&& 0xBF = old % 64 + 128 ∧
        (old &&& 0x7F) ||| 0x40 = old % 64 + 64) := by
  decide

theorem byte_of_reply (stored : List Nat) (b : Nat) (h : store_bytes [0xFF] stored = [b]) :
    b < 256 := by
  have hlt := store_bytes_lt [0xFF] stored (by decide)
  rw [h] at hlt
  exact hlt b (by simp)

/-- C10: when the transport answers the read of config register 0x00 with the byte
`old`, `max31856_set_continuous` issues two transactions, a read of one byte from
address 0x00 and then a write to register 0x00 (first byte 0x80) of
`(old | 0x80) & ~0x40` (as a byte, `& 0xBF`) when `continuous` is true and of
`(old & ~0x80) | 0x40` (as a byte, `& 0x7F`) when it is false; bits 0-5 of the written
value are bits 0-5 of `old`. -/
theorem max31856_set_continuous_rmw {κ σ : Type} (xfer : DataTransfer κ σ) (context : κ)
    (w : σ) (continuous : Bool) (old : Nat)
    (hold : store_bytes [0xFF] (xfer context w { buf0 := [0x00], buf1 := some [0xFF] }).2
      = [old]) :
    (max31856_set_continuous (recording xfer) context (w, []) continuous).2 =
        [{ buf0 := [0x00], buf1 := some [0xFF] },
          { buf0 := [0x80,
              if continuous then (old ||| 0x80) &&& 0xBF else (old &&& 0x7F) ||| 0x40],
            buf1 := none }] ∧
      (max31856_set_continuous (recording xfer) context (w, []) continuous).1
        = max31856_set_continuous xfer context w continuous ∧
      max31856_set_continuous xfer context w continuous =
        (xfer context (xfer context w { buf0 := [0x00], buf1 := some [0xFF] }).1
          { buf0 := [0x80,
              if continuous then (old ||| 0x80) &&& 0xBF else (old &&& 0x7F) ||| 0x40],
            buf1 := none }).1 ∧
      (if continuous then (old ||| 0x80) &&& 0xBF else (old &&& 0x7F) ||| 0x40) % 64
        = old % 64 ∧
      (if continuous then (old ||| 0x80) &&& 0xBF else (old &&& 0x7F) ||| 0x40) / 64
        = (if continuous then 2 else 1) := by
  have hlt : old < 256 := byte_of_reply _ old hold
  have hb := config0_bytes old hlt
  have h8 := read_register_8_config0 xfer context w old hold
  have h8r : max31856_read_register_8 (recording xfer) context (w, []) 0x00
      = (((xfer context w { buf0 := [0x00], buf1 := some [0xFF] }).1,
          [{ buf0 := [0x00], buf1 := some [0xFF] }]), old) :=
    read_register_8_config0 (recording xfer) context (w, []) old hold
  have e : (0 ||| 128) % 256 = 128 := by decide
  have m1 : (old % 64 + 64) % 256 = old % 64 + 64 := by omega
  have m2 : (old % 64 + 128) % 256 = old % 64 + 128 := by omega
  cases continuous
  · simp only [max31856_set_continuous, h8, h8r, max31856_write_register,
      max31856_data_write, recording, hb, Bool.false_eq_true, if_false, e, m1,
      List.cons_append, List.nil_append, true_and]
    refine ⟨?_, ?_⟩ <;> omega
  · simp only [max31856_set_continuous, h8, h8r, max31856_write_register,
      max31856_data_write, recording, hb, if_true, e, m2,
      List.cons_append, List.nil_append, true_and]
    refine ⟨?_, ?_⟩ <;> omega

/-- Witness of `max31856_set_continuous_rmw` on a bus that answers config register
0x00 with 0x55, for `continuous` true: the byte written is 0x95. -/
theorem max31856_set_continuous_rmw_witness :
    store_bytes [0xFF]
        (fixed_bus 0x55 0x00 0x00 0x00 () () { buf0 := [0x00], buf1 := some [0xFF] }).2
        = [0x55] ∧
      (max31856_set_continuous (recording (fixed_bus 0x55 0x00 0x00 0x00)) () ((), [])
          true).2 =
        [{ buf0 := [0x00], buf1 := some [0xFF] },
          { buf0 := [0x80, if true then (0x55 ||| 0x80) &&& 0xBF else (0x55 &&& 0x7F) ||| 0x40],
            buf1 := none }] :=
  ⟨by decide,
    (max31856_set_continuous_rmw (fixed_bus 0x55 0x00 0x00 0x00) () () true 0x55
      (by decide)).1⟩

/-- What `max31856_set_continuous` does to the register file of the fake bus. -/
theorem set_continuous_register_file (regs : Nat → Nat) (continuous : Bool) :
    max31856_set_continuous register_file () regs continuous =
      Function.update regs 0
        (if continuous then regs 0 % 256 % 64 + 128 else regs 0 % 256 % 64 + 64) := by
  have hb := config0_bytes (regs 0 % 256) (Nat.mod_lt _ (by decide))
  have h8 : max31856_read_register_8 register_file () regs 0x00 = (regs, regs 0 % 256) := rfl
  have e1 : (0 ||| 128) % 256 = 128 := by decide
  have e2 : 128 &&& 128 ≠ 0 := by decide
  have e3 : 128 &&& 127 = 0 := by decide
  have m1 : (regs 0 % 256 % 64 + 64) % 256 = regs 0 % 256 % 64 + 64 := by omega
  have m2 : (regs 0 % 256 % 64 + 128) % 256 = regs 0 % 256 % 64 + 128 := by omega
  cases continuous
  · simp only [max31856_set_continuous, h8, max31856_write_register, max31856_data_write,
      register_file, hb, Bool.false_eq_true, if_false, e1, m1]
    simp only [e2, e3, ne_eq, not_false_eq_true, if_true]
  · simp only [max31856_set_continuous, h8, max31856_write_register, max31856_data_write,
      register_file, hb, if_true, e1, m2]
    simp only [e2, e3, ne_eq, not_false_eq_true, if_true]

/-- C11: on the fake bus that echoes writes back as reads, for every initial register
content, `max31856_set_continuous(true)` followed by `max31856_set_continuous(false)`
leaves config register 0x00 with bit 6 set and bit 7 clear (and its bits 0-5 as they
were). -/
theorem max31856_set_continuous_true_then_false (regs : Nat → Nat) :
    Nat.testBit
        (max31856_set_continuous register_file ()
          (max31856_set_continuous register_file () regs true) false 0) 6 = true ∧
      Nat.testBit
        (max31856_set_continuous register_file ()
          (max31856_set_continuous register_file () regs true) false 0) 7 = false ∧
      max31856_set_continuous register_file ()
          (max31856_set_continuous register_file () regs true) false 0 % 64
        = regs 0 % 64 := by
  rw [set_continuous_register_file, set_continuous_register_file]
  simp only [Function.update_same, Bool.false_eq_true, if_false, if_true, testBit_true_iff,
    testBit_false_iff]
  norm_num
  omega

/-! ## MAX31856: readiness and thermocouple type -/

theorem read_register_8_reply {κ σ : Type} (xfer : DataTransfer κ σ) (context : κ)
    (w : σ) (addr c : Nat)
    (hc : store_bytes [0xFF]
      (xfer context w { buf0 := [(addr &&& 0x7F) % 256], buf1 := some [0xFF] }).2 = [c]) :
    max31856_read_register_8 xfer context w addr
      = ((xfer context w { buf0 := [(addr &&& 0x7F) % 256], buf1 := some [0xFF] }).1, c) := by
  rw [read_register_8_eq, hc]
  rfl

theorem and_0x40_eq_zero_iff (c : Nat) : c &&& 0x40 = 0 ↔ c.testBit 6 = false := by
  have h := and_two_pow_eq c 6
  rw [testBit_false_iff]
  norm_num at h ⊢
  rw [h]
  omega

/-- C12: for every transport, `max31856_read_ready` returns true if and only if bit 6
(0x40) of the byte `c` that the transport returns for config register 0x00 is clear;
two replies that agree on bit 6 give the same result, whatever their other bits. -/
theorem max31856_read_ready_iff {κ σ : Type} (xfer : DataTransfer κ σ) (context : κ)
    (w : σ) (c : Nat)
    (hc : store_bytes [0xFF] (xfer context w { buf0 := [0x00], buf1 := some [0xFF] }).2
      = [c]) :
    ((max31856_read_ready xfer context w).2 = true ↔ c &&& 0x40 = 0) ∧
      ((max31856_read_ready xfer context w).2 = true ↔ c.testBit 6 = false) ∧
      (∀ (xfer2 : DataTransfer κ σ) (context2 : κ) (w2 : σ) (c2 : Nat),
        store_bytes [0xFF] (xfer2 context2 w2 { buf0 := [0x00], buf1 := some [0xFF] }).2
          = [c2] →
        c2.testBit 6 = c.testBit 6 →
        (max31856_read_ready xfer2 context2 w2).2 = (max31856_read_ready xfer context w).2) := by
  have hr : ∀ (x : DataTransfer κ σ) (k : κ) (s : σ) (b : Nat),
      store_bytes [0xFF] (x k s { buf0 := [0x00], buf1 := some [0xFF] }).2 = [b] →
      (max31856_read_ready x k s).2 = decide (b &&& 0x40 = 0) := by
    intro x k s b hb
    have h8 := read_register_8_config0 x k s b hb
    simp only [max31856_read_ready, h8]
  refine ⟨?_, ?_, ?_⟩
  · rw [hr xfer context w c hc]
    simp
  · rw [hr xfer context w c hc, ← and_0x40_eq_zero_iff]
    simp
  · intro xfer2 context2 w2 c2 hc2 hbit
    rw [hr xfer context w c hc, hr xfer2 context2 w2 c2 hc2]
    simp only [and_0x40_eq_zero_iff, hbit]

/-- Witness of `max31856_read_ready_iff` on a bus that answers config register 0x00
with 0xBF (every bit but bit 6 set): the conversion is ready. -/
theorem max31856_read_ready_iff_witness :
    store_bytes [0xFF]
        (fixed_bus 0xBF 0x00 0x00 0x00 () () { buf0 := [0x00], buf1 := some [0xFF] }).2
        = [0xBF] ∧
      ((max31856_read_ready (fixed_bus 0xBF 0x00 0x00 0x00) () ()).2 = true ↔
        0xBF &&& 0x40 = 0) :=
  ⟨by decide,
    (max31856_read_ready_iff (fixed_bus 0xBF 0x00 0x00 0x00) () () 0xBF (by decide)).1⟩

set_option maxRecDepth 100000 in
/-- What `max31856_set_thermocouple_type_k` makes of a byte. -/
theorem config1_bytes :
    ∀ old : Nat, old < 256 →
      ((old &&& 0xF0) % 256 ||| (3 &&& 0x0F)) % 256 = old / 16 * 16 + 3 ∧
        (old &&& 0xF0) ||| 0x03 = old / 16 * 16 + 3 := by
  decide

/-- C13: when the transport answers the read of config register 0x01 with the byte
`old`, `max31856_set_thermocouple_type_k` issues two transactions, a read of one byte
from address 0x01 and then a write to register 0x01 (first byte 0x81) of
`(old & 0xF0) | 0x03`: the upper 4 bits are those of `old`, the lower 4 bits are 3;
nothing else is written, and on the register-file bus every register but 0x01 keeps
its value. -/
theorem max31856_set_thermocouple_type_k_rmw {κ σ : Type} (xfer : DataTransfer κ σ)
    (context : κ) (w : σ) (old : Nat)
    (hold : store_bytes [0xFF] (xfer context w { buf0 := [0x01], buf1 := some [0xFF] }).2
      = [old]) :
    (max31856_set_thermocouple_type_k (recording xfer) context (w, [])).2 =
        [{ buf0 := [0x01], buf1 := some [0xFF] },
          { buf0 := [0x81, (old &&& 0xF0) ||| 0x03], buf1 := none }] ∧
      (max31856_set_thermocouple_type_k (recording xfer) context (w, [])).1
        = max31856_set_thermocouple_type_k xfer context w ∧
      ((old &&& 0xF0) ||| 0x03) / 16 = old / 16 ∧
      ((old &&& 0xF0) ||| 0x03) % 16 = 3 ∧
      (∀ (regs : Nat → Nat) (i : Nat), i ≠ 0x01 →
        max31856_set_thermocouple_type_k register_file () regs i = regs i) := by
  have hlt : old < 256 := byte_of_reply _ old hold
  have hb := config1_bytes old hlt
  have h8 : max31856_read_register_8 xfer context w 0x01
      = ((xfer context w { buf0 := [0x01], buf1 := some [0xFF] }).1, old) :=
    read_register_8_reply xfer context w 0x01 old hold
  have h8r : max31856_read_register_8 (recording xfer) context (w, []) 0x01
      = (((xfer context w { buf0 := [0x01], buf1 := some [0xFF] }).1,
          [{ buf0 := [0x01], buf1 := some [0xFF] }]), old) :=
    read_register_8_reply (recording xfer) context (w, []) 0x01 old hold
  have e : (1 ||| 128) % 256 = 129 := by decide
  have m : (old / 16 * 16 + 3) % 256 = old / 16 * 16 + 3 := by omega
  refine ⟨?_, ?_, ?_, ?_, ?_⟩
  · simp only [max31856_set_thermocouple_type_k, h8r, max31856_write_register,
      max31856_data_write, recording, hb, e, m, List.cons_append, List.nil_append]
  · simp only [max31856_set_thermocouple_type_k, h8, h8r, max31856_write_register,
      max31856_data_write, recording]
  · rw [hb.2]
    omega
  · rw [hb.2]
    omega
  · intro regs i hi
    have hr8 : max31856_read_register_8 register_file () regs 0x01 = (regs, regs 1 % 256) :=
      rfl
    have e2 : 129 &&& 128 ≠ 0 := by decide
    have e3 : 129 &&& 127 = 1 := by decide
    simp only [max31856_set_thermocouple_type_k, hr8, max31856_write_register,
      max31856_data_write, register_file, e]
    simp only [e2, e3, ne_eq, not_false_eq_true, if_true]
    exact Function.update_noteq hi _ _

/-- Witness of `max31856_set_thermocouple_type_k_rmw` on a bus that answers config
register 0x01 with 0xA5: the byte written is 0xA3. -/
theorem max31856_set_thermocouple_type_k_rmw_witness :
    store_bytes [0xFF]
        (fixed_bus 0x00 0xA5 0x00 0x00 () () { buf0 := [0x01], buf1 := some [0xFF] }).2
        = [0xA5] ∧
      (max31856_set_thermocouple_type_k (recording (fixed_bus 0x00 0xA5 0x00 0x00)) ()
          ((), [])).2 =
        [{ buf0 := [0x01], buf1 := some [0xFF] },
          { buf0 := [0x81, (0xA5 &&& 0xF0) ||| 0x03], buf1 := none }] :=
  ⟨by decide,
    (max31856_set_thermocouple_type_k_rmw (fixed_bus 0x00 0xA5 0x00 0x00) () () 0xA5
      (by decide)).1⟩

/-! ## MAX31856: the transactions of the register layer -/

set_option maxRecDepth 100000 in
/-- The address bytes `max31856_write_register` and `max31856_read_register` send. -/
theorem address_bytes :
    ∀ addr : Nat, addr < 256 →
      (addr ||| 0x80) % 256 = addr ||| 0x80 ∧
        Nat.testBit (addr ||| 0x80) 7 = true ∧
        ((addr ||| 0x80) ||| 0x80) % 256 = addr ||| 0x80 ∧
        (addr &&& 0x7F) % 256 = addr &&& 0x7F ∧
        Nat.testBit (addr &&& 0x7F) 7 = false := by
  decide

/-- C15: for every address byte `addr` and value byte `v`, `max31856_write_register`
issues exactly one transaction; its write buffer is the two bytes `[addr | 0x80, v]`
and it has no read buffer (`NULL`, length 0); the first byte sent has bit 7 set, and
`write_register(addr | 0x80, v)` issues the same transaction. -/
theorem max31856_write_register_transaction {κ σ : Type} (xfer : DataTransfer κ σ)
    (context : κ) (w : σ) (addr v : Nat) (haddr : addr < 256) (hv : v < 256) :
    (max31856_write_register (recording xfer) context (w, []) addr v).2
        = [{ buf0 := [addr ||| 0x80, v], buf1 := none }] ∧
      (max31856_write_register (recording xfer) context (w, []) addr v).1
        = max31856_write_register xfer context w addr v ∧
      max31856_write_register xfer context w addr v
        = (xfer context w { buf0 := [addr ||| 0x80, v], buf1 := none }).1 ∧
      Nat.testBit (addr ||| 0x80) 7 = true ∧
      max31856_write_register (recording xfer) context (w, []) (addr ||| 0x80) v
        = max31856_write_register (recording xfer) context (w, []) addr v := by
  have ha := address_bytes addr haddr
  have hvm : v % 256 = v := Nat.mod_eq_of_lt hv
  refine ⟨?_, ?_, ?_, ha.2.1, ?_⟩
  · simp only [max31856_write_register, max31856_data_write, recording, ha, hvm,
      List.nil_append]
  · simp only [max31856_write_register, max31856_data_write, recording]
  · simp only [max31856_write_register, max31856_data_write, ha, hvm]
  · simp only [max31856_write_register, max31856_data_write, recording, ha]

/-- Witness of `max31856_write_register_transaction` at address 0x01 and value
0x03. -/
theorem max31856_write_register_transaction_witness :
    0x01 < 256 ∧ 0x03 < 256 ∧
      (max31856_write_register (recording silent_bus) () ((), []) 0x01 0x03).2
        = [{ buf0 := [0x01 ||| 0x80, 0x03], buf1 := none }] :=
  ⟨by decide, by decide,
    (max31856_write_register_transaction silent_bus () () 0x01 0x03 (by decide)
      (by decide)).1⟩

theorem store_bytes_nil (buf : List Nat) : store_bytes buf [] = buf := by
  cases buf <;> rfl

/-- C16: for every address byte `addr` and every read buffer of `len` bytes, `len` a
`uint8_t` value (below 256), `max31856_read_register` issues exactly one transaction,
a combined write-then-read whose write buffer is the single byte `[addr & 0x7F]` (bit
7 clear) and whose read buffer holds `len` bytes, each 0xFF, when the transfer is
invoked; the caller gets `len` bytes back, and `len` bytes of 0xFF when the transport
stores nothing.  For a longer buffer the `uint8_t` parameter narrows the length: the
read buffer of the transaction holds `length % 256` bytes. -/
theorem max31856_read_register_transaction {κ σ : Type} (xfer : DataTransfer κ σ)
    (context : κ) (w : σ) (addr : Nat) (read_buf : List Nat) (haddr : addr < 256)
    (hlen : read_buf.length < 256) :
    (max31856_read_register (recording xfer) context (w, []) addr read_buf).1.2
        = [{ buf0 := [addr &&& 0x7F],
             buf1 := some (List.replicate read_buf.length 0xFF) }] ∧
      (max31856_read_register (recording xfer) context (w, []) addr read_buf).1.1
        = (max31856_read_register xfer context w addr read_buf).1 ∧
      (max31856_read_register (recording xfer) context (w, []) addr read_buf).2
        = (max31856_read_register xfer context w addr read_buf).2 ∧
      Nat.testBit (addr &&& 0x7F) 7 = false ∧
      (max31856_read_register xfer context w addr read_buf).2.length = read_buf.length ∧
      ((xfer context w
          { buf0 := [addr &&& 0x7F],
            buf1 := some (List.replicate read_buf.length 0xFF) }).2 = [] →
        (max31856_read_register xfer context w addr read_buf).2
          = List.replicate read_buf.length 0xFF) ∧
      (∀ long_buf : List Nat,
        (max31856_read_register (recording xfer) context (w, []) addr long_buf).1.2
          = [{ buf0 := [addr &&& 0x7F],
               buf1 := some (List.replicate (long_buf.length % 256) 0xFF) }] ∧
        (max31856_read_register xfer context w addr long_buf).2.length
          = long_buf.length) := by
  have ha := address_bytes addr haddr
  have hmod : read_buf.length % 256 = read_buf.length := Nat.mod_eq_of_lt hlen
  have hshort : ∀ buf : List Nat, (List.take (buf.length % 256) buf).length
      = buf.length % 256 := by
    intro buf
    rw [List.length_take]
    exact Nat.min_eq_left (Nat.mod_le _ _)
  refine ⟨?_, ?_, ?_, ha.2.2.2.2, ?_, ?_, ?_⟩
  · simp only [max31856_read_register, max31856_data_write_and_read, recording, ha,
      List.nil_append, hmod, List.take_length]
  · simp only [max31856_read_register, max31856_data_write_and_read, recording]
  · simp only [max31856_read_register, max31856_data_write_and_read, recording]
  · simp only [max31856_read_register, max31856_data_write_and_read, store_bytes_length,
      List.length_replicate, hmod, List.take_length, List.drop_length, List.append_nil]
  · intro hnone
    simp only [max31856_read_register, max31856_data_write_and_read, ha, hnone,
      store_bytes_nil, hmod, List.take_length, List.drop_length, List.append_nil]
  · intro long_buf
    refine ⟨?_, ?_⟩
    · simp only [max31856_read_register, max31856_data_write_and_read, recording, ha,
        List.nil_append, hshort]
    · have hle : long_buf.length % 256 ≤ long_buf.length := Nat.mod_le _ _
      simp only [max31856_read_register, max31856_data_write_and_read, store_bytes_length,
        List.length_replicate, List.length_append, List.length_drop, hshort]
      omega

/-- Witness of `max31856_read_register_transaction` at address 0x8C with a buffer of
three bytes, on a bus that stores nothing: the caller is left with 0xFF 0xFF 0xFF. -/
theorem max31856_read_register_transaction_witness :
    0x8C < 256 ∧ [0, 0, 0].length < 256 ∧
      (max31856_read_register (recording silent_bus) () ((), []) 0x8C [0, 0, 0]).1.2
        = [{ buf0 := [0x8C &&& 0x7F],
             buf1 := some (List.replicate [0, 0, 0].length 0xFF) }] ∧
      (max31856_read_register silent_bus () () 0x8C [0, 0, 0]).2
        = List.replicate [0, 0, 0].length 0xFF :=
  ⟨by decide, by decide,
    (max31856_read_register_transaction silent_bus () () 0x8C [0, 0, 0] (by decide)
      (by decide)).1,
    (max31856_read_register_transaction silent_bus () () 0x8C [0, 0, 0] (by decide)
      (by decide)).2.2.2.2.2.1 (by decide)⟩

theorem read_register_16_eq {κ σ : Type} (xfer : DataTransfer κ σ) (context : κ) (w : σ)
    (addr b0 b1 : Nat)
    (hv : store_bytes [0xFF, 0xFF]
      (xfer context w { buf0 := [(addr &&& 0x7F) % 256], buf1 := some [0xFF, 0xFF] }).2
        = [b0, b1]) :
    max31856_read_register_16 xfer context w addr =
      ((xfer context w { buf0 := [(addr &&& 0x7F) % 256], buf1 := some [0xFF, 0xFF] }).1,
        b0 * 256 + b1) ∧ b0 < 256 ∧ b1 < 256 := by
  have hlt := store_bytes_lt [0xFF, 0xFF]
    (xfer context w { buf0 := [(addr &&& 0x7F) % 256], buf1 := some [0xFF, 0xFF] }).2
    (by decide)
  rw [hv] at hlt
  have h0 : b0 < 256 := hlt b0 (by simp)
  have h1 : b1 < 256 := hlt b1 (by simp)
  refine ⟨?_, h0, h1⟩
  simp only [max31856_read_register_16, max31856_read_register, max31856_data_write_and_read,
    List.length_cons, List.length_nil, List.replicate, hv, List.getD_cons_zero,
    List.getD_cons_succ, Nat.shiftLeft_eq]
  congr 1
  norm_num
  omega

/-- C17: the register read helpers assemble the bytes the transport returns big
endian: when a read of register `addr` is answered with `a0` (one byte), `b0 b1` (two
bytes) and `c0 c1 c2` (three bytes), `max31856_read_register_8` returns `a0`,
`max31856_read_register_16` returns `b0 * 256 + b1` and `max31856_read_register_24`
returns `c0 * 65536 + c1 * 256 + c2`, which is below `2 ^ 24`. -/
theorem max31856_read_register_big_endian {κ σ : Type} (xfer : DataTransfer κ σ)
    (context : κ) (w : σ) (addr a0 b0 b1 c0 c1 c2 : Nat)
    (h8 : store_bytes [0xFF]
      (xfer context w { buf0 := [(addr &&& 0x7F) % 256], buf1 := some [0xFF] }).2 = [a0])
    (h16 : store_bytes [0xFF, 0xFF]
      (xfer context w { buf0 := [(addr &&& 0x7F) % 256], buf1 := some [0xFF, 0xFF] }).2
        = [b0, b1])
    (h24 : store_bytes [0xFF, 0xFF, 0xFF]
      (xfer context w
        { buf0 := [(addr &&& 0x7F) % 256], buf1 := some [0xFF, 0xFF, 0xFF] }).2
        = [c0, c1, c2]) :
    (max31856_read_register_8 xfer context w addr).2 = a0 ∧
      (max31856_read_register_16 xfer context w addr).2 = b0 * 256 + b1 ∧
      (max31856_read_register_24 xfer context w addr).2 = c0 * 65536 + c1 * 256 + c2 ∧
      (max31856_read_register_8 xfer context w addr).2 < 2 ^ 8 ∧
      (max31856_read_register_16 xfer context w addr).2 < 2 ^ 16 ∧
      (max31856_read_register_24 xfer context w addr).2 < 2 ^ 24 := by
  have e8 := read_register_8_reply xfer context w addr a0 h8
  have e16 := read_register_16_eq xfer context w addr b0 b1 h16
  have e24 := read_register_24_eq xfer context w addr c0 c1 c2 h24
  have ha := byte_of_reply _ a0 h8
  have hb0 := e16.2.1
  have hb1 := e16.2.2
  have hc0 := e24.2.1
  have hc1 := e24.2.2.1
  have hc2 := e24.2.2.2
  rw [e8, e16.1, e24.1]
  norm_num
  refine ⟨?_, ?_, ?_⟩ <;> omega

/-- Witness of `max31856_read_register_big_endian` at register 0x0C on a bus that
answers with the bytes 0x12 0x34 0x56. -/
theorem max31856_read_register_big_endian_witness :
    store_bytes [0xFF]
        (fixed_bus 0x00 0x12 0x34 0x56 () ()
          { buf0 := [(0x0C &&& 0x7F) % 256], buf1 := some [0xFF] }).2 = [0x12] ∧
      store_bytes [0xFF, 0xFF]
        (fixed_bus 0x00 0x12 0x34 0x56 () ()
          { buf0 := [(0x0C &&& 0x7F) % 256], buf1 := some [0xFF, 0xFF] }).2
          = [0x12, 0x34] ∧
      store_bytes [0xFF, 0xFF, 0xFF]
        (fixed_bus 0x00 0x12 0x34 0x56 () ()
          { buf0 := [(0x0C &&& 0x7F) % 256], buf1 := some [0xFF, 0xFF, 0xFF] }).2
          = [0x12, 0x34, 0x56] ∧
      (max31856_read_register_8 (fixed_bus 0x00 0x12 0x34 0x56) () () 0x0C).2 = 0x12 ∧
      (max31856_read_register_16 (fixed_bus 0x00 0x12 0x34 0x56) () () 0x0C).2
        = 0x12 * 256 + 0x34 ∧
      (max31856_read_register_24 (fixed_bus 0x00 0x12 0x34 0x56) () () 0x0C).2
        = 0x12 * 65536 + 0x34 * 256 + 0x56 :=
  ⟨by decide, by decide, by decide,
    (max31856_read_register_big_endian (fixed_bus 0x00 0x12 0x34 0x56) () () 0x0C
      0x12 0x12 0x34 0x12 0x34 0x56 (by decide) (by decide) (by decide)).1,
    (max31856_read_register_big_endian (fixed_bus 0x00 0x12 0x34 0x56) () () 0x0C
      0x12 0x12 0x34 0x12 0x34 0x56 (by decide) (by decide) (by decide)).2.1,
    (max31856_read_register_big_endian (fixed_bus 0x00 0x12 0x34 0x56) () () 0x0C
      0x12 0x12 0x34 0x12 0x34 0x56 (by decide) (by decide) (by decide)).2.2.1⟩

/-! ## MAX31856: one-shot preparation -/

/-- C18: `max31856_prepare_read` is `max31856_set_continuous(false)`: for every
transport and state both give the same result, also on the recording bus, so they
issue the same transactions; these are the read of one byte from register 0x00,
answered with `old`, then the write of `(old & ~0x80) | 0x40` (as a byte, `& 0x7F`) to
register 0x00, a value with bit 7 clear, bit 6 set and bits 0-5 those of `old`. -/
theorem max31856_prepare_read_is_one_shot {κ σ : Type} (xfer : DataTransfer κ σ)
    (context : κ) (w : σ) (old : Nat)
    (hold : store_bytes [0xFF] (xfer context w { buf0 := [0x00], buf1 := some [0xFF] }).2
      = [old]) :
    max31856_prepare_read xfer context w = max31856_set_continuous xfer context w false ∧
      max31856_prepare_read (recording xfer) context (w, [])
        = max31856_set_continuous (recording xfer) context (w, []) false ∧
      (max31856_prepare_read (recording xfer) context (w, [])).2 =
        [{ buf0 := [0x00], buf1 := some [0xFF] },
          { buf0 := [0x80, (old &&& 0x7F) ||| 0x40], buf1 := none }] ∧
      Nat.testBit ((old &&& 0x7F) ||| 0x40) 7 = false ∧
      Nat.testBit ((old &&& 0x7F) ||| 0x40) 6 = true ∧
      ((old &&& 0x7F) ||| 0x40) % 64 = old % 64 := by
  have hlt : old < 256 := byte_of_reply _ old hold
  have hb := config0_bytes old hlt
  have h8r : max31856_read_register_8 (recording xfer) context (w, []) 0x00
      = (((xfer context w { buf0 := [0x00], buf1 := some [0xFF] }).1,
          [{ buf0 := [0x00], buf1 := some [0xFF] }]), old) :=
    read_register_8_config0 (recording xfer) context (w, []) old hold
  have e : (0 ||| 128) % 256 = 128 := by decide
  have m1 : (old % 64 + 64) % 256 = old % 64 + 64 := by omega
  refine ⟨rfl, rfl, ?_, ?_, ?_, ?_⟩
  · simp only [max31856_prepare_read, h8r, max31856_write_register,
      max31856_data_write, recording, hb, e, m1, List.cons_append, List.nil_append]
  · rw [hb.2.2, testBit_false_iff]
    norm_num
    omega
  · rw [hb.2.2, testBit_true_iff]
    norm_num
  · rw [hb.2.2]
    omega

/-- Witness of `max31856_prepare_read_is_one_shot` on a bus that answers config
register 0x00 with 0x95 (continuous mode): the byte written is 0x55. -/
theorem max31856_prepare_read_is_one_shot_witness :
    store_bytes [0xFF]
        (fixed_bus 0x95 0x00 0x00 0x00 () () { buf0 := [0x00], buf1 := some [0xFF] }).2
        = [0x95] ∧
      (max31856_prepare_read (recording (fixed_bus 0x95 0x00 0x00 0x00)) () ((), [])).2 =
        [{ buf0 := [0x00], buf1 := some [0xFF] },
          { buf0 := [0x80, (0x95 &&& 0x7F) ||| 0x40], buf1 := none }] :=
  ⟨by decide,
    (max31856_prepare_read_is_one_shot (fixed_bus 0x95 0x00 0x00 0x00) () () 0x95
      (by decide)).2.2.1⟩

/-! ## MAX31856: the reads leave the chip alone -/

theorem read_ready_reply {κ σ : Type} (xfer : DataTransfer κ σ) (context : κ) (w : σ)
    (c : Nat)
    (hc : store_bytes [0xFF] (xfer context w { buf0 := [0x00], buf1 := some [0xFF] }).2
      = [c]) :
    max31856_read_ready xfer context w
      = ((xfer context w { buf0 := [0x00], buf1 := some [0xFF] }).1,
          decide (c &&& 0x40 = 0)) := by
  have h8 := read_register_8_config0 xfer context w c hc
  simp only [max31856_read_ready, h8]

theorem read_register_24_state {κ σ : Type} (xfer : DataTransfer κ σ) (context : κ)
    (w : σ) (addr : Nat) :
    (max31856_read_register_24 xfer context w addr).1
      = (xfer context w
          { buf0 := [(addr &&& 0x7F) % 256], buf1 := some [0xFF, 0xFF, 0xFF] }).1 :=
  rfl

/-- The state in which `max31856_read_c` leaves the bus. -/
theorem read_c_state {κ σ : Type} (xfer : DataTransfer κ σ) (context : κ) (w : σ)
    (c : Nat)
    (hc : store_bytes [0xFF] (xfer context w { buf0 := [0x00], buf1 := some [0xFF] }).2
      = [c]) :
    (max31856_read_c xfer context w).1 =
      if c &&& 0x40 = 0 then
        (xfer context (xfer context w { buf0 := [0x00], buf1 := some [0xFF] }).1
          { buf0 := [0x0C], buf1 := some [0xFF, 0xFF, 0xFF] }).1
      else (xfer context w { buf0 := [0x00], buf1 := some [0xFF] }).1 := by
  have hr := read_ready_reply xfer context w c hc
  by_cases h : c &&& 0x40 = 0
  · simp only [max31856_read_c, hr, h, decide_True, Bool.not_true, Bool.false_eq_true,
      if_false, if_true, read_register_24_state]
    rfl
  · simp only [max31856_read_c, hr, h, decide_False, Bool.not_false, if_true, if_false]

/-- C19: `max31856_read_ready` and `max31856_read_c` never write to the chip.  With `c`
the byte answered for config register 0x00: `read_ready` issues exactly one
transaction, the read of one byte from 0x00; `read_c` issues exactly that one when the
conversion is pending and exactly two when it is ready, the second being the read of
three bytes from 0x0C; the first byte of every one of these transactions has bit 7
clear; on the register-file bus every register is unchanged after either call. -/
theorem max31856_reads_never_write {κ σ : Type} (xfer : DataTransfer κ σ) (context : κ)
    (w : σ) (c : Nat)
    (hc : store_bytes [0xFF] (xfer context w { buf0 := [0x00], buf1 := some [0xFF] }).2
      = [c]) :
    (max31856_read_ready (recording xfer) context (w, [])).1.2
        = [{ buf0 := [0x00], buf1 := some [0xFF] }] ∧
      (max31856_read_c (recording xfer) context (w, [])).1.2
        = (if c &&& 0x40 = 0 then
            [{ buf0 := [0x00], buf1 := some [0xFF] },
              { buf0 := [0x0C], buf1 := some [0xFF, 0xFF, 0xFF] }]
          else [{ buf0 := [0x00], buf1 := some [0xFF] }]) ∧
      (∀ t ∈ (max31856_read_ready (recording xfer) context (w, [])).1.2,
        ∃ a rest, t.buf0 = a :: rest ∧ Nat.testBit a 7 = false) ∧
      (∀ t ∈ (max31856_read_c (recording xfer) context (w, [])).1.2,
        ∃ a rest, t.buf0 = a :: rest ∧ Nat.testBit a 7 = false) ∧
      (∀ regs : Nat → Nat, (max31856_read_ready register_file () regs).1 = regs) ∧
      (∀ regs : Nat → Nat, (max31856_read_c register_file () regs).1 = regs) := by
  have hready := read_ready_reply (recording xfer) context (w, []) c hc
  have hreadc := read_c_state (recording xfer) context (w, []) c hc
  have h1 : (max31856_read_ready (recording xfer) context (w, [])).1.2
      = [{ buf0 := [0x00], buf1 := some [0xFF] }] := by
    rw [hready]
    rfl
  have h2 : (max31856_read_c (recording xfer) context (w, [])).1.2
      = (if c &&& 0x40 = 0 then
          [{ buf0 := [0x00], buf1 := some [0xFF] },
            { buf0 := [0x0C], buf1 := some [0xFF, 0xFF, 0xFF] }]
        else [{ buf0 := [0x00], buf1 := some [0xFF] }]) := by
    rw [hreadc]
    split_ifs <;> rfl
  refine ⟨h1, h2, ?_, ?_, ?_, ?_⟩
  · intro t ht
    rw [h1] at ht
    simp only [List.mem_singleton] at ht
    rw [ht]
    exact ⟨0x00, [], rfl, by decide⟩
  · intro t ht
    rw [h2] at ht
    split_ifs at ht
    · simp only [List.mem_cons, List.mem_singleton, List.not_mem_nil, or_false] at ht
      rcases ht with ht | ht
      · rw [ht]
        exact ⟨0x00, [], rfl, by decide⟩
      · rw [ht]
        exact ⟨0x0C, [], rfl, by decide⟩
    · simp only [List.mem_singleton] at ht
      rw [ht]
      exact ⟨0x00, [], rfl, by decide⟩
  · intro regs
    rfl
  · intro regs
    have hrc := read_c_state register_file () regs (regs 0 % 256) rfl
    rw [hrc]
    split_ifs <;> rfl

/-- Witness of `max31856_reads_never_write` on a bus that answers config register
0x00 with 0x00 (ready): `read_c` issues the two reads. -/
theorem max31856_reads_never_write_witness :
    store_bytes [0xFF]
        (fixed_bus 0x00 0x01 0x02 0x03 () () { buf0 := [0x00], buf1 := some [0xFF] }).2
        = [0x00] ∧
      (max31856_read_c (recording (fixed_bus 0x00 0x01 0x02 0x03)) () ((), [])).1.2
        = (if 0x00 &&& 0x40 = 0 then
            [{ buf0 := [0x00], buf1 := some [0xFF] },
              { buf0 := [0x0C], buf1 := some [0xFF, 0xFF, 0xFF] }]
          else [{ buf0 := [0x00], buf1 := some [0xFF] }]) :=
  ⟨by decide,
    (max31856_reads_never_write (fixed_bus 0x00 0x01 0x02 0x03) () () 0x00
      (by decide)).2.1⟩

/-! ## MAX31856: range and resolution of the temperature -/

theorem store_bytes_one (stored : List Nat) : ∃ c, store_bytes [0xFF] stored = [c] := by
  rcases stored with _ | ⟨x, rest⟩
  · exact ⟨_, rfl⟩
  · exact ⟨_, rfl⟩

theorem store_bytes_three (stored : List Nat) :
    ∃ b0 b1 b2, store_bytes [0xFF, 0xFF, 0xFF] stored = [b0, b1, b2] := by
  rcases stored with _ | ⟨x, _ | ⟨y, _ | ⟨z, rest⟩⟩⟩
  · exact ⟨_, _, _, rfl⟩
  · exact ⟨_, _, _, rfl⟩
  · exact ⟨_, _, _, rfl⟩
  · exact ⟨_, _, _, rfl⟩

/-- The shifted temperature depends on the register value through `v / 32` alone. -/
theorem temp_quotient (v : Nat) (hv : v < 2 ^ 24) :
    twos_complement 24 v / 32 =
      if 262144 ≤ v / 32 then ((v / 32 : Nat) : Int) - 524288 else ((v / 32 : Nat) : Int) := by
  rw [twos_complement_eq 24 v (by decide) hv]
  norm_num at hv ⊢
  split_ifs <;> omega

/-- C20: whenever `max31856_read_c` returns a number `t`, `t * 128` is an integer
between -262144 and 262143, so `-2048 ≤ t < 2048`; and the 5 low bits of the 24-bit
temperature register have no influence: a ready read of a register value with the
same bits 5-23 (the same quotient by 32) returns the same `t`. -/
theorem max31856_read_c_range {κ σ : Type} (xfer : DataTransfer κ σ) (context : κ) (w : σ)
    (t : ℚ) (ht : (max31856_read_c xfer context w).2 = some t) :
    (∃ n : ℤ, t * 128 = (n : ℚ) ∧ -262144 ≤ n ∧ n ≤ 262143) ∧
      -2048 ≤ t ∧ t < 2048 ∧
      (∀ (xfer2 : DataTransfer κ σ) (context2 : κ) (w2 : σ) (b0 b1 b2 c2 d0 d1 d2 : Nat),
        store_bytes [0xFF, 0xFF, 0xFF]
          (xfer context (xfer context w { buf0 := [0x00], buf1 := some [0xFF] }).1
            { buf0 := [0x0C], buf1 := some [0xFF, 0xFF, 0xFF] }).2 = [b0, b1, b2] →
        store_bytes [0xFF]
          (xfer2 context2 w2 { buf0 := [0x00], buf1 := some [0xFF] }).2 = [c2] →
        c2 &&& 0x40 = 0 →
        store_bytes [0xFF, 0xFF, 0xFF]
          (xfer2 context2 (xfer2 context2 w2 { buf0 := [0x00], buf1 := some [0xFF] }).1
            { buf0 := [0x0C], buf1 := some [0xFF, 0xFF, 0xFF] }).2 = [d0, d1, d2] →
        (d0 * 65536 + d1 * 256 + d2) / 32 = (b0 * 65536 + b1 * 256 + b2) / 32 →
        (max31856_read_c xfer2 context2 w2).2 = some t) := by
  obtain ⟨c, hc⟩ := store_bytes_one
    (xfer context w { buf0 := [0x00], buf1 := some [0xFF] }).2
  obtain ⟨a0, a1, a2, hv⟩ := store_bytes_three
    (xfer context (xfer context w { buf0 := [0x00], buf1 := some [0xFF] }).1
      { buf0 := [0x0C], buf1 := some [0xFF, 0xFF, 0xFF] }).2
  have hready : c &&& 0x40 = 0 := by
    by_contra hne
    have h8 := read_register_8_config0 xfer context w c hc
    have hnone : (max31856_read_c xfer context w).2 = none := by
      simp [max31856_read_c, max31856_read_ready, h8, hne]
    rw [hnone] at ht
    exact Option.noConfusion ht
  have hrc := read_c_ready xfer context w c a0 a1 a2 hc hready hv
  have hq := temp_quotient _ hrc.2
  have hlt := hrc.2
  rw [hrc.1] at ht
  have htq : t = ((twos_complement 24 (a0 * 65536 + a1 * 256 + a2) / 32 : ℤ) : ℚ) / 128 :=
    (Option.some.inj ht).symm
  have hlo : -262144 ≤ twos_complement 24 (a0 * 65536 + a1 * 256 + a2) / 32 := by
    rw [hq]
    norm_num at hlt
    split_ifs <;> omega
  have hhi : twos_complement 24 (a0 * 65536 + a1 * 256 + a2) / 32 ≤ 262143 := by
    rw [hq]
    norm_num at hlt
    split_ifs <;> omega
  have hloq : (-262144 : ℚ) ≤
      ((twos_complement 24 (a0 * 65536 + a1 * 256 + a2) / 32 : ℤ) : ℚ) := by
    exact_mod_cast hlo
  have hhiq : ((twos_complement 24 (a0 * 65536 + a1 * 256 + a2) / 32 : ℤ) : ℚ)
      ≤ (262143 : ℚ) := by
    exact_mod_cast hhi
  refine ⟨⟨twos_complement 24 (a0 * 65536 + a1 * 256 + a2) / 32, ?_, hlo, hhi⟩, ?_, ?_, ?_⟩
  · rw [htq]
    norm_num
  · rw [htq]
    linarith
  · rw [htq]
    linarith
  · intro xfer2 context2 w2 b0 b1 b2 c2 d0 d1 d2 hb hc2 hready2 hd hsame
    rw [hv] at hb
    have hrc2 := read_c_ready xfer2 context2 w2 c2 d0 d1 d2 hc2 hready2 hd
    have hq2 := temp_quotient _ hrc2.2
    simp only [List.cons.injEq, and_true] at hb
    rw [← hb.1, ← hb.2.1, ← hb.2.2] at hsame
    rw [hrc2.1, htq, hq, hq2, hsame]

/-- Witness of `max31856_read_c_range` on a bus that answers config register 0x00
with 0x00 and register 0x0C with 0xFF 0xFF 0xE0, where `read_c` returns -1/128. -/
theorem max31856_read_c_range_witness :
    (max31856_read_c (fixed_bus 0x00 0xFF 0xFF 0xE0) () ()).2 = some (-1 / 128) ∧
      (∃ n : ℤ, (-1 / 128 : ℚ) * 128 = (n : ℚ) ∧ -262144 ≤ n ∧ n ≤ 262143) ∧
      -2048 ≤ (-1 / 128 : ℚ) ∧ (-1 / 128 : ℚ) < 2048 := by
  have ht : (max31856_read_c (fixed_bus 0x00 0xFF 0xFF 0xE0) () ()).2 = some (-1 / 128) := by
    rw [(read_c_ready (fixed_bus 0x00 0xFF 0xFF 0xE0) () () 0x00 0xFF 0xFF 0xE0
      (by decide) (by decide) (by decide)).1]
    have h1 : twos_complement 24 (0xFF * 65536 + 0xFF * 256 + 0xE0) / 32 = -1 := by decide
    simp only [h1]
    norm_num
  have h := max31856_read_c_range (fixed_bus 0x00 0xFF 0xFF 0xE0) () () (-1 / 128) ht
  exact ⟨ht, h.1, h.2.1, h.2.2.1⟩

end Thermo
